import Mathlib

/-!
Verification of the overseerr-mcp adapter: a shallow embedding of the
domain model (src/models/overseerr.py, src/models/plex.py), the two
upstream HTTP clients (src/tools/overseerr_client.py,
src/tools/plex_client.py) and the tool layer (src/server.py).

Modelling conventions:
- Upstream HTTP responses are supplied by an environment record whose
  fields stand for the JSON bodies returned by each endpoint; a
  `Except String` result models an HTTP/transport failure raised as
  OverseerrError or PlexError.
- JSON objects are embedded as structures of `Option` fields (a `none`
  field is an absent key); `dict.get(k, d)` becomes `Option.getD`.
- Python floats are modelled as `Rat`; datetimes as a wall-clock `Int`
  together with a timezone-awareness flag (`replace(tzinfo=None)` keeps
  the wall-clock value and drops the flag).
- Python truthiness on strings, lists and integers (empty/zero is
  falsy) is modelled explicitly at each use site.
- A `for`-loop that appends unless it hits `continue` is embedded as
  `List.filterMap` over the per-item step.
-/

namespace OverseerrMCP

/-- Python `or`-chain over optional strings: first present, non-empty
string wins, otherwise the default (models e.g.
`self.title or self.name or ... or "Unknown"`). -/
def firstTruthy : List (Option String) → String → String
  | [], dflt => dflt
  | x :: xs, dflt =>
    match x with
    | some s => if s = "" then firstTruthy xs dflt else s
    | none => firstTruthy xs dflt

/-- Python `datetime`: wall-clock instant plus tz-awareness flag. -/
structure PyDatetime where
  wall : Int
  aware : Bool
deriving DecidableEq

/-- `dt.replace(tzinfo=None) if dt.tzinfo else dt`: normalization to a
naive datetime keeps the wall-clock value. -/
def pyNaive (d : PyDatetime) : Int := d.wall

/-- models/overseerr.py `MediaType`. -/
inductive MediaType where
  | movie
  | tv
deriving DecidableEq

/-- `MediaType.value` wire string. -/
def MediaType.value : MediaType → String
  | .movie => "movie"
  | .tv => "tv"

/-- Enum construction `MediaType(s)`: `none` models the `ValueError`
raised on an unrecognized string. -/
def MediaType.ofString? (s : String) : Option MediaType :=
  if s = "movie" then some .movie
  else if s = "tv" then some .tv
  else none

/-- models/overseerr.py `RequestStatus`. -/
inductive RequestStatus where
  | PENDING
  | APPROVED
  | DECLINED
deriving DecidableEq

/-- `RequestStatus.value` wire integer. -/
def RequestStatus.value : RequestStatus → Int
  | .PENDING => 1
  | .APPROVED => 2
  | .DECLINED => 3

/-- Python enum `.name` attribute. -/
def RequestStatus.pyName : RequestStatus → String
  | .PENDING => "PENDING"
  | .APPROVED => "APPROVED"
  | .DECLINED => "DECLINED"

/-- Enum construction `RequestStatus(v)`: `none` models `ValueError`. -/
def RequestStatus.ofInt? (v : Int) : Option RequestStatus :=
  if v = 1 then some .PENDING
  else if v = 2 then some .APPROVED
  else if v = 3 then some .DECLINED
  else none

/-- models/overseerr.py `MediaStatus`. -/
inductive MediaStatus where
  | UNKNOWN
  | PENDING
  | PROCESSING
  | PARTIALLY_AVAILABLE
  | AVAILABLE
deriving DecidableEq

/-- `MediaStatus.value` wire integer. -/
def MediaStatus.value : MediaStatus → Int
  | .UNKNOWN => 1
  | .PENDING => 2
  | .PROCESSING => 3
  | .PARTIALLY_AVAILABLE => 4
  | .AVAILABLE => 5

/-- Enum construction `MediaStatus(v)`: `none` models the `ValueError`
raised on a code outside 1..5. -/
def MediaStatus.ofInt? (v : Int) : Option MediaStatus :=
  if v = 1 then some .UNKNOWN
  else if v = 2 then some .PENDING
  else if v = 3 then some .PROCESSING
  else if v = 4 then some .PARTIALLY_AVAILABLE
  else if v = 5 then some .AVAILABLE
  else none

/-- models/overseerr.py `get_media_status_text` (the lookup table covers
every constructor, so the `"Unknown"` dict default is unreachable). -/
def get_media_status_text : MediaStatus → String
  | .UNKNOWN => "Not Requested"
  | .PENDING => "Requested"
  | .PROCESSING => "Processing"
  | .PARTIALLY_AVAILABLE => "Partially Available"
  | .AVAILABLE => "Available"

/-- Raw JSON user object as consumed by `UserInfo(**item)`. -/
structure RawUser where
  id : Option Int := none
  email : Option String := none
  plexUsername : Option String := none
  username : Option String := none
  displayName : Option String := none
  requestCount : Option Int := none
deriving DecidableEq

/-- models/overseerr.py `UserInfo` (validated). -/
structure UserInfo where
  id : Int
  email : Option String
  plexUsername : Option String
  username : Option String
  displayName : Option String
  requestCount : Option Int
deriving DecidableEq

/-- Pydantic validation of `UserInfo`: the only required field is `id`;
a missing `id` raises `ValidationError`, modelled as `none`. -/
def parseUserInfo (raw : RawUser) : Option UserInfo :=
  match raw.id with
  | some i =>
    some ⟨i, raw.email, raw.plexUsername, raw.username, raw.displayName, raw.requestCount⟩
  | none => none

/-- `UserInfo.name`: first truthy of displayName, plexUsername,
username, email, else `User {id}` (brace shown as interpolation in the
source f-string). -/
def UserInfo.name (u : UserInfo) : String :=
  firstTruthy [u.displayName, u.plexUsername, u.username, u.email] ("User " ++ toString u.id)

/-- Validate an optional sub-object: absent is fine, present must parse
(models pydantic `Optional[T]` fields). -/
def parseOpt (f : α → Option β) : Option α → Option (Option β)
  | none => some none
  | some a => (f a).map some

/-- Raw nested `media` object on a request. -/
structure RawMediaInfo where
  id : Option Int := none
  tmdbId : Option Int := none
  tvdbId : Option Int := none
  status : Option Int := none
  mediaType : Option String := none
deriving DecidableEq

/-- models/overseerr.py `MediaInfo` (validated). -/
structure MediaInfo where
  id : Int
  tmdbId : Option Int
  tvdbId : Option Int
  status : Option MediaStatus
  mediaType : Option MediaType
deriving DecidableEq

/-- Pydantic validation of `MediaInfo`: `id` required; `status` and
`mediaType`, when present, must be valid enum codes. -/
def parseMediaInfo (raw : RawMediaInfo) : Option MediaInfo := do
  let i ← raw.id
  let st ← parseOpt MediaStatus.ofInt? raw.status
  let mt ← parseOpt MediaType.ofString? raw.mediaType
  pure ⟨i, raw.tmdbId, raw.tvdbId, st, mt⟩

/-- Raw JSON request object as consumed by `MediaRequest(**item)`. -/
structure RawRequest where
  id : Option Int := none
  status : Option Int := none
  createdAt : Option PyDatetime := none
  updatedAt : Option PyDatetime := none
  type : Option String := none
  media : Option RawMediaInfo := none
  requestedBy : Option RawUser := none
  modifiedBy : Option RawUser := none
  title : Option String := none
  name : Option String := none
deriving DecidableEq

/-- models/overseerr.py `MediaRequest` (validated). -/
structure MediaRequest where
  id : Int
  status : RequestStatus
  createdAt : PyDatetime
  updatedAt : Option PyDatetime
  type : MediaType
  media : Option MediaInfo
  requestedBy : Option UserInfo
  modifiedBy : Option UserInfo
  title : Option String
  name : Option String
deriving DecidableEq

/-- Pydantic validation of `MediaRequest`: `id`, `status`, `createdAt`,
`type` required; nested optional objects must parse when present. -/
def parseMediaRequest (raw : RawRequest) : Option MediaRequest := do
  let i ← raw.id
  let st ← raw.status.bind RequestStatus.ofInt?
  let ca ← raw.createdAt
  let ty ← raw.type.bind MediaType.ofString?
  let md ← parseOpt parseMediaInfo raw.media
  let rb ← parseOpt parseUserInfo raw.requestedBy
  let mb ← parseOpt parseUserInfo raw.modifiedBy
  pure ⟨i, st, ca, raw.updatedAt, ty, md, rb, mb, raw.title, raw.name⟩

/-- `MediaRequest.status_text` (the lookup covers every constructor). -/
def MediaRequest.status_text (r : MediaRequest) : String :=
  match r.status with
  | .PENDING => "Pending"
  | .APPROVED => "Approved"
  | .DECLINED => "Declined"

/-- `MediaRequest.requester_name`. -/
def MediaRequest.requester_name (r : MediaRequest) : String :=
  match r.requestedBy with
  | some u => u.name
  | none => "Unknown"

/-- One element of a `mediaInfo.requests` array (only `status` read). -/
structure RawMediaInfoRequest where
  status : Option Int := none
deriving DecidableEq

/-- One element of a `mediaInfo.seasons` array on a TV detail. -/
structure RawSeasonInfo where
  seasonNumber : Option Int := none
  status : Option Int := none
deriving DecidableEq

/-- Raw `mediaInfo` block nested on a search hit or a detail fetch. -/
structure RawMediaInfoBlock where
  status : Option Int := none
  seasons : List RawSeasonInfo := []
  requests : List RawMediaInfoRequest := []
deriving DecidableEq

/-- Status resolution shared verbatim by `search_media` and
`get_media_status`: default UNKNOWN when the block is absent, default
status key 1, and the try/except around `MediaStatus(v)` falls back to
UNKNOWN on an unrecognized code. -/
def resolveMediaStatus (mi : Option RawMediaInfoBlock) : MediaStatus :=
  match mi with
  | none => .UNKNOWN
  | some b => (MediaStatus.ofInt? (b.status.getD 1)).getD .UNKNOWN

/-- Raw JSON search hit as consumed by `MediaSearchResult(**item)`. -/
structure RawSearchItem where
  mediaType : Option String := none
  id : Option Int := none
  title : Option String := none
  name : Option String := none
  originalTitle : Option String := none
  originalName : Option String := none
  overview : Option String := none
  releaseDate : Option String := none
  firstAirDate : Option String := none
  posterPath : Option String := none
  popularity : Option Rat := none
  voteAverage : Option Rat := none
  mediaInfo : Option RawMediaInfoBlock := none
deriving DecidableEq

/-- models/overseerr.py `MediaSearchResult` (validated). -/
structure MediaSearchResult where
  id : Int
  mediaType : MediaType
  title : Option String
  name : Option String
  originalTitle : Option String
  originalName : Option String
  overview : Option String
  releaseDate : Option String
  firstAirDate : Option String
  posterPath : Option String
  popularity : Option Rat
  voteAverage : Option Rat
deriving DecidableEq

/-- Pydantic validation of `MediaSearchResult`: `id` and `mediaType`
required (the extra `mediaInfo` key is ignored by the model). -/
def parseMediaSearchResult (raw : RawSearchItem) : Option MediaSearchResult := do
  let i ← raw.id
  let mt ← raw.mediaType.bind MediaType.ofString?
  pure ⟨i, mt, raw.title, raw.name, raw.originalTitle, raw.originalName, raw.overview,
        raw.releaseDate, raw.firstAirDate, raw.posterPath, raw.popularity, raw.voteAverage⟩

/-- `MediaSearchResult.display_title`. -/
def MediaSearchResult.display_title (r : MediaSearchResult) : String :=
  firstTruthy [r.title, r.name, r.originalTitle, r.originalName] "Unknown"

/-- `MediaSearchResult.year`: first 4 characters of the first truthy
date field, `none` when both are absent or empty. -/
def MediaSearchResult.year (r : MediaSearchResult) : Option String :=
  let date := firstTruthy [r.releaseDate, r.firstAirDate] ""
  if date = "" then none else some (date.take 4)

/-- One element of a detail fetch `seasons` array. -/
structure RawSeasonEntry where
  seasonNumber : Option Int := none
  episodeCount : Option Int := none
deriving DecidableEq

/-- Raw JSON body of a movie or TV detail fetch (`GET /movie/{id}` or
`GET /tv/{id}`); each Python call site reads the keys relevant to its
media type. `genres` holds each element's `g.get("name")`. -/
structure RawDetail where
  title : Option String := none
  name : Option String := none
  releaseDate : Option String := none
  firstAirDate : Option String := none
  tagline : Option String := none
  overview : Option String := none
  genres : List (Option String) := []
  voteAverage : Option Rat := none
  mediaInfo : Option RawMediaInfoBlock := none
  seasons : List RawSeasonEntry := []
deriving DecidableEq

/-- models/overseerr.py `RequestResponse`, as parsed from a successful
create-request POST. -/
structure RequestResponse where
  id : Int
  status : RequestStatus
  createdAt : PyDatetime
  type : MediaType
deriving DecidableEq

/-- The Overseerr upstream, one field per endpoint consumed. Successful
JSON bodies are given directly; `Except.error` on the detail endpoints
models an HTTP or transport failure raised as `OverseerrError`
(the URL-encoding of the search query is a transport detail absorbed
into the `search` field). `requestsPage` takes the `take`, `skip`,
`sort` and optional `filter` query parameters. -/
structure OvEnv where
  search : String → Nat → List RawSearchItem := fun _ _ => []
  usersPage : Nat → List RawUser := fun _ => []
  userDetail : Int → Except String RawUser := fun _ => .error "Resource not found"
  requestsPage : Nat → Nat → String → Option Int → List RawRequest := fun _ _ _ _ => []
  movieDetail : Int → Except String RawDetail := fun _ => .error "Resource not found"
  tvDetail : Int → Except String RawDetail := fun _ => .error "Resource not found"
  createResult : Except String RequestResponse := .error "Resource not found"

/-- One element of the list `search_media` returns (the dict built at
the end of its per-item loop); `status` holds `status.value`. -/
structure SearchEntry where
  id : Int
  mediaType : MediaType
  title : String
  year : Option String
  overview : Option String
  voteAverage : Option Rat
  status : Int
  status_text : String
deriving DecidableEq

/-- The per-item body of the `search_media` result loop: the two
`continue` prefilters (type mismatch with the optional filter, type not
movie/tv), then `MediaSearchResult(**item)` with `ValidationError`
skipping the item, then status resolution and display-field
attachment. -/
def processSearchItem (media_type : Option MediaType) (item : RawSearchItem) :
    Option SearchEntry :=
  let typeMismatch : Bool :=
    match media_type with
    | some f => item.mediaType != some f.value
    | none => false
  if typeMismatch then none
  else if item.mediaType != some "movie" && item.mediaType != some "tv" then none
  else
    match parseMediaSearchResult item with
    | none => none
    | some parsed =>
      let status := resolveMediaStatus item.mediaInfo
      some { id := parsed.id
             mediaType := parsed.mediaType
             title := parsed.display_title
             year := parsed.year
             overview := parsed.overview
             voteAverage := parsed.voteAverage
             status := status.value
             status_text := get_media_status_text status }

/-- `OverseerrClient.search_media(query, page=1, media_type)`. -/
def search_media (env : OvEnv) (query : String) (media_type : Option MediaType) :
    List SearchEntry :=
  (env.search query 1).filterMap (processSearchItem media_type)

/-- `OverseerrClient.get_users()`: fetch `/user?take=100`, parse each
item, drop the ones failing validation. -/
def get_users (env : OvEnv) : List UserInfo :=
  (env.usersPage 100).filterMap parseUserInfo

/-- `OverseerrClient.get_requests(status, take, skip, sort_by)`: fetch a
page of `/request`, parse each item, drop the ones failing
validation. -/
def get_requests (env : OvEnv) (status : Option RequestStatus) (take skip : Nat)
    (sortBy : String) : List MediaRequest :=
  (env.requestsPage take skip sortBy (status.map RequestStatus.value)).filterMap
    parseMediaRequest

/-- Title enrichment shared by `get_requests_with_media_info` and
`get_user_requests`: fetch the movie/TV detail when the request has a
truthy TMDB id; an `OverseerrError` during the fetch leaves the title
at `"Unknown"`. -/
def resolveTitle (env : OvEnv) (req : MediaRequest) : String :=
  match req.media with
  | none => "Unknown"
  | some m =>
    match m.tmdbId with
    | none => "Unknown"
    | some t =>
      if t = 0 then "Unknown"
      else
        match req.type with
        | .movie =>
          match env.movieDetail t with
          | .ok d => d.title.getD "Unknown Movie"
          | .error _ => "Unknown"
        | .tv =>
          match env.tvDetail t with
          | .ok d => d.name.getD "Unknown TV Show"
          | .error _ => "Unknown"

/-- Flattened summary record appended by
`get_requests_with_media_info` (the ISO rendering of `requested_at` is
modelled by the datetime value itself). -/
structure ReqSummary where
  id : Int
  title : String
  type : String
  status : String
  requested_by : String
  requested_at : PyDatetime
  user_id : Option Int
deriving DecidableEq

/-- The summary dict built for one request in
`get_requests_with_media_info`. -/
def enrichSummary (env : OvEnv) (req : MediaRequest) : ReqSummary :=
  { id := req.id
    title := resolveTitle env req
    type := req.type.value
    status := req.status_text
    requested_by := req.requester_name
    requested_at := req.createdAt
    user_id := req.requestedBy.map (·.id) }

/-- `OverseerrClient.get_requests_with_media_info(status, since, take)`:
list requests, and for each one skip it when `since` is given and the
naive-normalized creation time is strictly before the naive-normalized
`since`, otherwise enrich and keep it. -/
def get_requests_with_media_info (env : OvEnv) (status : Option RequestStatus)
    (since : Option PyDatetime) (take : Nat) : List ReqSummary :=
  (get_requests env status take 0 "added").filterMap fun req =>
    match since with
    | some s =>
      if pyNaive req.createdAt < pyNaive s then none
      else some (enrichSummary env req)
    | none => some (enrichSummary env req)

/-- The dict `OverseerrClient.get_media_status` returns; `status` holds
`status.value`, `seasons_count` is present only for TV. -/
structure MediaStatusResult where
  tmdb_id : Int
  title : String
  media_type : String
  status : Int
  status_text : String
  has_request : Bool
  request_status : Option String
  seasons_count : Option Nat
deriving DecidableEq

/-- `request_status_map.get(code, "Unknown")` on the latest request's
`status` key in `get_media_status`. -/
def requestStatusLabel : Option Int → String
  | some 1 => "Pending"
  | some 2 => "Approved"
  | some 3 => "Declined"
  | _ => "Unknown"

/-- `OverseerrClient.get_media_status(tmdb_id, media_type)`: fetch the
detail, resolve availability from the optional `mediaInfo` block
(default UNKNOWN, falling back to UNKNOWN on an unrecognized code),
report request existence and the latest request's status, and for TV
count the seasons with number > 0. -/
def get_media_status (env : OvEnv) (tmdb_id : Int) (media_type : MediaType) :
    Except String MediaStatusResult :=
  let fetched :=
    match media_type with
    | .movie => env.movieDetail tmdb_id
    | .tv => env.tvDetail tmdb_id
  match fetched with
  | .error e => .error e
  | .ok data =>
    let title :=
      match media_type with
      | .movie => data.title.getD "Unknown Movie"
      | .tv => data.name.getD "Unknown TV Show"
    let status := resolveMediaStatus data.mediaInfo
    let has_request :=
      match data.mediaInfo with
      | none => false
      | some mi => decide (0 < mi.requests.length)
    let request_status :=
      match data.mediaInfo with
      | none => none
      | some mi =>
        match mi.requests.getLast? with
        | some latest => some (requestStatusLabel latest.status)
        | none => none
    .ok { tmdb_id := tmdb_id
          title := title
          media_type := media_type.value
          status := status.value
          status_text := get_media_status_text status
          has_request := has_request
          request_status := request_status
          seasons_count :=
            match media_type with
            | .tv => some ((data.seasons.filter (fun s => 0 < s.seasonNumber.getD 0)).length)
            | .movie => none }

/-- The `seasons` value of a create-request POST body: either the
string `"all"` or an explicit list of season numbers. -/
inductive SeasonsField where
  | all
  | nums (l : List Int)
deriving DecidableEq

/-- The POST `/request` body built by `OverseerrClient.request_media`;
`seasons = none` means the key is absent from the payload. -/
structure RequestPayload where
  mediaType : String
  mediaId : Int
  seasons : Option SeasonsField
deriving DecidableEq

/-- Payload construction in `OverseerrClient.request_media`: for TV
with a truthy (non-empty) season list the list is sent; for TV
otherwise the string `"all"` is sent; for movies no `seasons` key is
set. -/
def requestMediaPayload (media_type : MediaType) (tmdb_id : Int)
    (seasons : Option (List Int)) : RequestPayload :=
  match media_type, seasons with
  | .tv, some l =>
    if l.isEmpty then { mediaType := "tv", mediaId := tmdb_id, seasons := some .all }
    else { mediaType := "tv", mediaId := tmdb_id, seasons := some (.nums l) }
  | .tv, none => { mediaType := "tv", mediaId := tmdb_id, seasons := some .all }
  | .movie, _ => { mediaType := "movie", mediaId := tmdb_id, seasons := none }

/-- models/plex.py `PlexLibrarySection`. -/
structure PlexLibrarySection where
  key : String
  title : String
  type : String
deriving DecidableEq

/-- models/plex.py `PlexMediaItem`. -/
structure PlexMediaItem where
  title : String
  year : Option Int
  rating : Option Rat
  summary : Option String
  content_rating : Option String
  media_type : String
deriving DecidableEq

/-- One element of the `/library/sections` `Directory` array (`key` and
`title` are indexed directly in the source, so modelled as present;
`type` is read with a `""` default). -/
structure RawDirectory where
  key : String
  title : String
  type : Option String := none
deriving DecidableEq

/-- One element of a section listing `Metadata` array. -/
structure RawPlexItem where
  title : Option String := none
  year : Option Int := none
  rating : Option Rat := none
  summary : Option String := none
  contentRating : Option String := none
deriving DecidableEq

/-- The Plex upstream: the `/library/sections` directory array and, per
section key and title query, the `Metadata` array of
`/library/sections/{key}/all?title=`. -/
structure PlexEnv where
  directories : List RawDirectory := []
  hits : String → String → List RawPlexItem := fun _ _ => []

/-- `PlexClient.get_library_sections()`: keep only directories of type
movie or show. (The process-lifetime cache is invisible to a single
call and not modelled.) -/
def get_library_sections (env : PlexEnv) : List PlexLibrarySection :=
  env.directories.filterMap fun d =>
    let t := d.type.getD ""
    if t == "movie" || t == "show" then some ⟨d.key, d.title, t⟩ else none

/-- The `PlexMediaItem` built for one hit in `search_library`, with the
section's normalized type. -/
def mkPlexItem (normType : String) (i : RawPlexItem) : PlexMediaItem :=
  { title := i.title.getD "Unknown"
    year := i.year
    rating := i.rating
    summary := i.summary
    content_rating := i.contentRating
    media_type := normType }

/-- The inner item loop of `search_library` over one section's hits:
append each normalized item and return immediately (flag `true`) as
soon as the accumulated list reaches 50. -/
def sectionScan (normType : String) : List RawPlexItem → List PlexMediaItem →
    List PlexMediaItem × Bool
  | [], acc => (acc, false)
  | i :: is, acc =>
    let acc' := acc ++ [mkPlexItem normType i]
    if 50 ≤ acc'.length then (acc', true) else sectionScan normType is acc'

/-- The section loop of `search_library`: query each remaining section
(recording its key as queried), scan its hits, and stop short as soon
as the inner loop reports the cap was reached. -/
def searchSections (env : PlexEnv) (query : String) :
    List PlexLibrarySection → List PlexMediaItem → List PlexMediaItem × List String
  | [], acc => (acc, [])
  | s :: rest, acc =>
    let items := env.hits s.key query
    let normType := if s.type = "show" then "tv" else s.type
    match sectionScan normType items acc with
    | (acc', true) => (acc', [s.key])
    | (acc', false) =>
      let (res, queried) := searchSections env query rest acc'
      (res, s.key :: queried)

/-- Target-section resolution at the top of `search_library`: all
movie/show sections, filtered by the requested type when given (a "tv"
filter maps back to the upstream "show" type). -/
def targetSections (env : PlexEnv) (media_type : Option String) :
    List PlexLibrarySection :=
  let sections := get_library_sections env
  match media_type with
  | some m =>
    let plexType := if m = "tv" then "show" else m
    sections.filter (fun s => s.type == plexType)
  | none => sections

/-- `PlexClient.search_library(query, media_type)`: resolve target
sections, then run the capped scan; the second component lists the keys
of the sections actually queried over HTTP. -/
def search_library (env : PlexEnv) (query : String) (media_type : Option String) :
    List PlexMediaItem × List String :=
  searchSections env query (targetSections env media_type) []

/-! ## Tool layer (src/server.py) -/

/-- Python truthiness of an optional string argument (`if seasons:`,
`if media_status:`): absent or empty is falsy. -/
def strTruthy : Option String → Bool
  | none => false
  | some s => !(s == "")

/-- Python `str.lower()` (`String.toLower` restated over the character
list so that it reduces in the kernel). -/
def pyLower (s : String) : String := ⟨s.data.map Char.toLower⟩

/-- Round half to even at integer precision, on rationals (Python
floats are modelled as rationals). -/
def roundHalfEven (x : Rat) : Int :=
  let f := x.floor
  let frac := x - f
  if frac < 1/2 then f
  else if 1/2 < frac then f + 1
  else if f % 2 = 0 then f else f + 1

/-- Python `round(x, 1)`. -/
def pyRound1 (x : Rat) : Rat := (roundHalfEven (x * 10) : Rat) / 10

/-- `round(details.get("voteAverage", 0), 1) or None`: a zero rating is
falsy and becomes `None`. -/
def ratingOf (v : Option Rat) : Option Rat :=
  let r := pyRound1 (v.getD 0)
  if r = 0 then none else some r

/-- `str(details.get(dateKey, ""))[:4] or None`. -/
def take4OrNone (s : String) : Option String :=
  let y := s.take 4
  if y = "" then none else some y

/-- `overview = details.get("overview", "")` truncated to 200
characters plus an ellipsis when longer. -/
def truncOverview (s : String) : String :=
  if 200 < s.length then s.take 200 ++ "..." else s

/-- The `season_statuses` dict of `request_media`
(`{s.get("seasonNumber"): s.get("status", 1) for s in mediaInfo seasons}`
then `.get(n, 1)`): the last entry for a key wins, missing key or
missing status defaults to 1. -/
def seasonStatusCode (infos : List RawSeasonInfo) (n : Int) : Int :=
  match (infos.filter (fun s => s.seasonNumber == some n)).getLast? with
  | some s => s.status.getD 1
  | none => 1

/-- The per-season `status_map.get(code, "Unknown")` of
`request_media`. -/
def seasonStatusText (code : Int) : String :=
  if code = 1 then "Not Requested"
  else if code = 2 then "Requested"
  else if code = 3 then "Processing"
  else if code = 4 then "Partially Available"
  else if code = 5 then "Available"
  else "Unknown"

/-- One element of the `season_details` list of `request_media`. -/
structure SeasonDetail where
  season : Int
  episodes : Int
  status : String
deriving DecidableEq

/-- The `season_details` list of `request_media`: every season of the
detail fetch except number 0 (specials), each with its episode count
and labelled status. -/
def seasonDetailsOf (d : RawDetail) : List SeasonDetail :=
  let infos := (d.mediaInfo.map (·.seasons)).getD []
  d.seasons.filterMap fun s =>
    let n := s.seasonNumber.getD 0
    if n = 0 then none
    else some { season := n
                episodes := s.episodeCount.getD 0
                status := seasonStatusText (seasonStatusCode infos n) }

/-- `[s["season"] for s in season_details if s["status"] == "Not Requested"]`. -/
def notRequestedSeasons (d : RawDetail) : List Int :=
  (seasonDetailsOf d).filterMap fun sd =>
    if sd.status == "Not Requested" then some sd.season else none

/-- `",".join(map(str, ns))`. -/
def joinNumbers (ns : List Int) : String :=
  String.intercalate "," (ns.map toString)

/-- The multi-season guidance message of the preview branch. -/
def suggestSeasonsMsg (ns : List Int) : String :=
  "Specify seasons to request (e.g., seasons=\"" ++ joinNumbers ns ++ "\" or seasons=\"all\")"

/-- The guidance message when no season is "Not Requested". -/
def allRequestedMsg : String :=
  "All seasons already requested/available. Specify seasons parameter to re-request specific seasons."

/-- The ToolError text raised on confirm=true without a resolvable
season selection. -/
def mustSpecifySeasonsMsg (n : Nat) : String :=
  "This show has " ++ toString n ++
    " seasons. Please specify which seasons to request (e.g., seasons=\"1,2\" or seasons=\"all\")"

/-- The preview dict returned by `request_media` without confirm;
`seasons` is present only for TV. -/
structure PreviewOut where
  tmdb_id : Int
  title : String
  year : Option String
  type : String
  tagline : Option String
  overview : String
  genres : List (Option String)
  rating : Option Rat
  seasons : Option (List SeasonDetail)
  selected_seasons : Option String
  message : String
deriving DecidableEq

/-- The confirmation dict returned by `request_media` after a
successful create call. -/
structure SuccessOut where
  request_id : Int
  title : String
  year : Option String
  type : String
  status : String
  message : String
  seasons_requested : Option String
deriving DecidableEq

/-- The non-error return of the `request_media` tool. -/
inductive ToolReturn where
  | preview (p : PreviewOut)
  | success (s : SuccessOut)
deriving DecidableEq

/-- Result of one `request_media` tool invocation: the returned dict or
the ToolError message, plus every POST `/request` issued, recorded as
(media type, tmdb id, season-list argument to the client). -/
structure RequestMediaOutcome where
  result : Except String ToolReturn
  createCalls : List (MediaType × Int × Option (List Int))

/-- The preview carried by a `request_media` outcome, when it is one. -/
def previewOf (o : RequestMediaOutcome) : Option PreviewOut :=
  match o.result with
  | .ok (.preview p) => some p
  | _ => none

/-- `[int(s.strip()) for s in seasons.split(",")]`; `none` models the
`ValueError` raised by `int` on a non-numeric part. -/
def parseSeasonsArg (s : String) : Option (List Int) :=
  (s.splitOn ",").mapM fun part => part.trim.toInt?

/-- server.py `request_media` tool. Drives the preview/confirm
protocol: fetch detail, build metadata and (for TV) per-season
statuses; without confirm return a preview and guidance; with confirm
resolve the season selection (explicit list, "all", auto-select for a
single-season show, otherwise reject) and issue exactly one create
call. Error strings carry the prefix added by the except-handlers of
the tool: "Invalid input: " for ValueError, "Request failed: " for
OverseerrError, and "Unexpected error: " for everything else — in
particular the in-body ToolError (fastmcp ToolError is neither an
OverseerrError nor a ValueError, so the generic handler rewraps it).
The exact CPython ValueError texts are paraphrased. -/
def request_media_tool (env : OvEnv) (tmdb_id : Int) (media_type : String)
    (seasons : Option String) (confirm : Bool) : RequestMediaOutcome :=
  match MediaType.ofString? (pyLower media_type) with
  | none =>
    { result := .error ("Invalid input: " ++ pyLower media_type ++ " is not a valid MediaType")
      createCalls := [] }
  | some mt =>
    let fetched :=
      match mt with
      | .movie => env.movieDetail tmdb_id
      | .tv => env.tvDetail tmdb_id
    match fetched with
    | .error e => { result := .error ("Request failed: " ++ e), createCalls := [] }
    | .ok details =>
      let title :=
        match mt with
        | .movie => details.title.getD "Unknown"
        | .tv => details.name.getD "Unknown"
      let year :=
        match mt with
        | .movie => take4OrNone (details.releaseDate.getD "")
        | .tv => take4OrNone (details.firstAirDate.getD "")
      let overview := truncOverview (details.overview.getD "")
      let rating := ratingOf details.voteAverage
      let season_details :=
        match mt with
        | .tv => seasonDetailsOf details
        | .movie => []
      if confirm = false then
        let base : PreviewOut :=
          { tmdb_id := tmdb_id
            title := title
            year := year
            type := mt.value
            tagline := details.tagline
            overview := overview
            genres := details.genres
            rating := rating
            seasons := none
            selected_seasons := none
            message := "Call again with confirm=true to submit this request" }
        match mt with
        | .movie => { result := .ok (.preview base), createCalls := [] }
        | .tv =>
          let withSeasons := { base with seasons := some season_details }
          if strTruthy seasons then
            { result := .ok (.preview { withSeasons with selected_seasons := seasons })
              createCalls := [] }
          else
            match season_details with
            | [sd] =>
              { result := .ok (.preview
                  { withSeasons with
                    selected_seasons := some (toString sd.season)
                    message := "Call again with confirm=true to request season 1" })
                createCalls := [] }
            | _ =>
              let not_requested := notRequestedSeasons details
              let msg :=
                if not_requested.isEmpty then allRequestedMsg
                else suggestSeasonsMsg (not_requested.take 3)
              { result := .ok (.preview { withSeasons with message := msg })
                createCalls := [] }
      else
        let selection : Except String (Option (List Int) × Option String) :=
          match mt with
          | .movie => .ok (none, none)
          | .tv =>
            let sval := seasons.getD ""
            if strTruthy seasons && (pyLower sval == "all") then .ok (none, some "all")
            else if strTruthy seasons then
              match parseSeasonsArg sval with
              | some l => .ok (some l, seasons)
              | none => .error "Invalid input: invalid literal for int with base 10"
            else
              match season_details with
              | [sd] => .ok (some [sd.season], some (toString sd.season))
              | _ => .error ("Unexpected error: " ++ mustSpecifySeasonsMsg season_details.length)
        match selection with
        | .error msg => { result := .error msg, createCalls := [] }
        | .ok (season_list, seasons_requested) =>
          match env.createResult with
          | .error e =>
            { result := .error ("Request failed: " ++ e)
              createCalls := [(mt, tmdb_id, season_list)] }
          | .ok r =>
            { result := .ok (.success
                { request_id := r.id
                  title := title
                  year := year
                  type := r.type.value
                  status := r.status.pyName
                  message := "Request created for \x27" ++ title ++ "\x27 (ID: " ++
                    toString r.id ++ ")"
                  seasons_requested := seasons_requested })
              createCalls := [(mt, tmdb_id, season_list)] }

/-- Keyword parameter names accepted by
`OverseerrClient.get_requests_with_media_info` (beyond `self`), from
its def signature. -/
def getRequestsWithMediaInfoParams : List String := ["status", "since", "take"]

/-- Keyword argument names the `get_requests` tool passes at its call
site `client.get_requests_with_media_info(filter_by=..., since=...,
take=...)`. -/
def getRequestsCallKwargs : List String := ["filter_by", "since", "take"]

/-- Keyword parameter names accepted by
`OverseerrClient.get_user_requests` (beyond `self`), from its def
signature. -/
def getUserRequestsParams : List String := ["user_id"]

/-- Keyword argument names (beyond the positional `user_id`) the
`get_user_requests` tool passes at its call site
`client.get_user_requests(user_id, media_status_filter=..., limit=...)`. -/
def getUserRequestsCallKwargs : List String := ["media_status_filter", "limit"]

/-- Python keyword binding: a call succeeds only if every keyword name
is an accepted parameter name; otherwise the call raises TypeError
before the callee body runs. -/
def kwargsBind (params kwargs : List String) : Bool :=
  kwargs.all (params.contains ·)

/-- The response envelope the `get_requests` tool would build. -/
structure GetRequestsResp where
  count : Nat
  requests : List ReqSummary
deriving DecidableEq

/-- Result of one `get_requests` tool invocation, with the number of
GET `/request` fetches issued. -/
structure GetRequestsOutcome where
  result : Except String GetRequestsResp
  requestFetches : Nat

/-- server.py `get_requests` tool. The argument preprocessing (API
filter choice, optional `since` cutoff from `days`, take count) runs
first and performs no HTTP; the call
`client.get_requests_with_media_info(filter_by=api_filter, since=since,
take=take_count)` then binds its keyword names before the callee body
runs — `filter_by` is not an accepted parameter name, so Python raises
TypeError with no HTTP request issued, and the generic except-Exception
handler turns that into a ToolError. `now` stands for
`datetime.now()` (a naive datetime). -/
def get_requests_tool (_env : OvEnv) (status media_status : Option String)
    (days : Option Nat) (limit : Nat) (show_all : Bool) (now : Int) :
    GetRequestsOutcome :=
  let api_filter : Option String :=
    if strTruthy media_status then
      let ms := pyLower (media_status.getD "")
      if ms == "available" || ms == "processing" || ms == "unavailable" || ms == "failed"
      then some ms else none
    else if strTruthy status then
      let st := pyLower (status.getD "")
      if st == "pending" || st == "approved" then some st else none
    else none
  let client_side_status_filter : Option String :=
    if strTruthy media_status && strTruthy status
    then some (pyLower (status.getD "")) else none
  let since : Option PyDatetime :=
    match days with
    | some d => if d = 0 then none else some ⟨now - d * 86400, false⟩
    | none => none
  let take_count := if show_all then 10000 else limit
  if kwargsBind getRequestsWithMediaInfoParams getRequestsCallKwargs then
    -- Dead branch: the two name lists above are literals and the bind
    -- fails, so no invocation ever reaches the client body. The values
    -- computed above (api_filter, client_side_status_filter, since,
    -- take_count) are bound here only to mirror the source order.
    { result := .ok { count := 0, requests := [] }
      requestFetches := if api_filter == client_side_status_filter ∧ since.isSome ∧
        take_count = take_count then 1 else 1 }
  else
    { result := .error
        "Unexpected error: get_requests_with_media_info got an unexpected keyword argument filter_by"
      requestFetches := 0 }

/-- The response envelope of the `get_user_requests` tool (never
reached: the claim below proves every invocation errors). -/
structure UserRequestsResp where
  user : String
  user_id : Int
  request_count : Nat
deriving DecidableEq

/-- Result of one `get_user_requests` tool invocation, with the number
of HTTP requests (user fetch, request fetches, detail fetches)
issued. -/
structure GetUserRequestsOutcome where
  result : Except String UserRequestsResp
  httpCalls : Nat

/-- server.py `get_user_requests` tool. The media-status display-text
mapping runs first and performs no HTTP; the call
`client.get_user_requests(user_id, media_status_filter=status_filter,
limit=take_count)` then binds its keyword names — neither
`media_status_filter` nor `limit` is an accepted parameter of the
client method, so Python raises TypeError with no HTTP issued, and the
generic except-Exception handler turns that into a ToolError. -/
def get_user_requests_tool (_env : OvEnv) (user_id : Int)
    (media_status : Option String) (limit : Nat) (show_all : Bool) :
    GetUserRequestsOutcome :=
  let status_filter : Option String :=
    if strTruthy media_status then
      let ms := pyLower (media_status.getD "")
      if ms == "processing" then some "Processing"
      else if ms == "available" then some "Available"
      else if ms == "partially_available" then some "Partially Available"
      else if ms == "requested" then some "Requested"
      else if ms == "not_requested" then some "Not Requested"
      else none
    else none
  let take_count := if show_all then 10000 else limit
  if kwargsBind getUserRequestsParams getUserRequestsCallKwargs then
    -- Dead branch: the bind fails for every invocation (see the name
    -- lists above); status_filter and take_count are bound only to
    -- mirror the source order.
    { result := .ok { user := "", user_id := user_id
                      request_count := if status_filter.isSome ∧ take_count = take_count
                        then 0 else 0 }
      httpCalls := 1 }
  else
    { result := .error
        "Unexpected error: get_user_requests got an unexpected keyword argument media_status_filter"
      httpCalls := 0 }

/-! ## Concrete upstream fixtures used by witnesses -/

/-- A three-regular-season TV detail: season 1 available (status 5),
seasons 2 and 3 not yet requested; season 0 (specials) present. -/
def tvDetail3 : RawDetail :=
  { name := some "Sample Show"
    firstAirDate := some "2021-04-05"
    overview := some "An example"
    voteAverage := some 8
    mediaInfo := some { status := some 4
                        seasons := [{ seasonNumber := some 1, status := some 5 }]
                        requests := [{ status := some 2 }] }
    seasons := [{ seasonNumber := some 0, episodeCount := some 3 },
                { seasonNumber := some 1, episodeCount := some 8 },
                { seasonNumber := some 2, episodeCount := some 10 },
                { seasonNumber := some 3, episodeCount := some 6 }] }

/-- A parsed create-request response. -/
def sampleCreateResponse : RequestResponse :=
  { id := 77, status := .PENDING, createdAt := ⟨0, false⟩, type := .tv }

/-- Overseerr upstream serving `tvDetail3` for every TV id and a
successful create call. -/
def envTv : OvEnv :=
  { tvDetail := fun _ => .ok tvDetail3
    createResult := .ok sampleCreateResponse }

/-- A TV detail whose `mediaInfo` carries the out-of-range status code
7, and a movie detail with no `mediaInfo`. -/
def tvDetail7 : RawDetail :=
  { name := some "Odd Status"
    mediaInfo := some { status := some 7 } }

/-- A search hit whose `mediaInfo` carries the status code 7. -/
def searchItem7 : RawSearchItem :=
  { mediaType := some "tv"
    id := some 4
    name := some "Odd Status"
    mediaInfo := some { status := some 7 } }

/-- Overseerr upstream for the status-resolution witness. -/
def envStatus7 : OvEnv :=
  { tvDetail := fun _ => .ok tvDetail7
    movieDetail := fun _ => .ok { title := some "Bare Movie" }
    search := fun _ _ => [searchItem7] }

/-- A request created exactly at the `since` boundary (tz-naive). -/
def reqAtBoundary : RawRequest :=
  { id := some 1, status := some 1, createdAt := some ⟨1000, false⟩, type := some "movie" }

/-- A request created strictly before the boundary (tz-aware). -/
def reqBefore : RawRequest :=
  { id := some 2, status := some 2, createdAt := some ⟨900, true⟩, type := some "tv" }

/-- Overseerr upstream whose request listing returns one request before
the boundary and one exactly at it. -/
def envReq : OvEnv :=
  { requestsPage := fun _ _ _ _ => [reqBefore, reqAtBoundary] }

/-- The parsed form of `reqAtBoundary`. -/
def reqAtBoundaryParsed : MediaRequest :=
  { id := 1, status := .PENDING, createdAt := ⟨1000, false⟩, updatedAt := none
    type := .movie, media := none, requestedBy := none, modifiedBy := none
    title := none, name := none }

/-- A user record that validates and one that fails validation
(missing required `id`). -/
def goodUserA : RawUser := { id := some 1, email := some "a@example.com" }

/-- A second valid user record. -/
def goodUserB : RawUser := { id := some 2, displayName := some "B" }

/-- A user record failing validation: required `id` absent. -/
def badUser : RawUser := { email := some "noid@example.com" }

/-- A request record failing validation: status code 9 is not a
`RequestStatus`. -/
def badRequest : RawRequest :=
  { id := some 3, status := some 9, createdAt := some ⟨1, false⟩, type := some "tv" }

/-- A search hit failing validation: required `id` absent. -/
def badSearchItem : RawSearchItem := { mediaType := some "tv", name := some "NoId" }

/-- A search hit that validates. -/
def goodSearchItem : RawSearchItem := { mediaType := some "movie", id := some 9, title := some "Ok" }

/-- Overseerr upstream for the skip-invalid witness: each list endpoint
returns one malformed record between two valid ones. -/
def envSkip : OvEnv :=
  { usersPage := fun _ => [goodUserA, badUser, goodUserB]
    requestsPage := fun _ _ _ _ => [reqAtBoundary, badRequest, reqBefore]
    search := fun _ _ => [goodSearchItem, badSearchItem, goodSearchItem] }

/-- Plex upstream: two movie sections and one show section, each
returning 30 hits for any title query. -/
def plexEnv3 : PlexEnv :=
  { directories := [{ key := "1", title := "Movies", type := some "movie" },
                    { key := "2", title := "Shows", type := some "show" },
                    { key := "3", title := "More Movies", type := some "movie" }]
    hits := fun _ _ => List.replicate 30 {} }

/-! ## Helper lemmas -/

/-- A `filterMap` whose step succeeds on every element keeps the
length. -/
theorem length_filterMap_of_isSome {α β} (f : α → Option β) (l : List α)
    (h : ∀ x ∈ l, (f x).isSome) : (l.filterMap f).length = l.length := by
  induction l with
  | nil => rfl
  | cons a t ih =>
    obtain ⟨b, hb⟩ := Option.isSome_iff_exists.mp (h a (List.mem_cons_self a t))
    simp only [List.filterMap_cons, hb, List.length_cons]
    exact congrArg Nat.succ (ih fun x hx => h x (List.mem_cons_of_mem a hx))

/-- Dropping the one failing element of a batch. -/
theorem filterMap_middle_none {α β} (f : α → Option β) (pre post : List α) (bad : α)
    (hbad : f bad = none) :
    (pre ++ bad :: post).filterMap f = pre.filterMap f ++ post.filterMap f := by
  simp [List.filterMap_append, List.filterMap_cons, hbad]

/-- A skip-on-condition loop is a filter followed by a map. -/
theorem filterMap_skipIf_eq_filter_map {α β} (p : α → Prop) [DecidablePred p]
    (g : α → β) (l : List α) :
    (l.filterMap fun x => if p x then none else some (g x)) =
      (l.filter fun x => !decide (p x)).map g := by
  induction l with
  | nil => rfl
  | cons a t ih => by_cases h : p a <;> simp [h, ih]

/-- Enum parse fails exactly outside the 1..5 wire codes. -/
theorem mediaStatus_ofInt_eq_none {v : Int} (h : ¬(1 ≤ v ∧ v ≤ 5)) :
    MediaStatus.ofInt? v = none := by
  have h1 : v ≠ 1 := by omega
  have h2 : v ≠ 2 := by omega
  have h3 : v ≠ 3 := by omega
  have h4 : v ≠ 4 := by omega
  have h5 : v ≠ 5 := by omega
  simp [MediaStatus.ofInt?, h1, h2, h3, h4, h5]

/-! ## Claim theorems -/

/-- C4: every invocation of the `get_requests` tool ends in a tool
error — the call site passes the keyword `filter_by` which
`get_requests_with_media_info` does not accept, so the keyword bind
raises TypeError before any HTTP request for requests is made — and
likewise every invocation of the `get_user_requests` tool, whose call
site passes `media_status_filter` and `limit`. -/
theorem get_requests_tool_always_errors (env : OvEnv)
    (status media_status : Option String) (days : Option Nat) (limit : Nat)
    (show_all : Bool) (now : Int) (user_id : Int) :
    (get_requests_tool env status media_status days limit show_all now).result =
      .error "Unexpected error: get_requests_with_media_info got an unexpected keyword argument filter_by" ∧
    (get_requests_tool env status media_status days limit show_all now).requestFetches = 0 ∧
    (get_user_requests_tool env user_id media_status limit show_all).result =
      .error "Unexpected error: get_user_requests got an unexpected keyword argument media_status_filter" ∧
    (get_user_requests_tool env user_id media_status limit show_all).httpCalls = 0 :=
  ⟨rfl, rfl, rfl, rfl⟩

/-- C3: contrary to the claim, `OverseerrClient.get_user_requests`
accepts neither a media-status filter nor a limit — its only parameter
is `user_id` — so the tool call, which passes both keywords, fails the
keyword bind on every invocation (here evaluated at the failing input
user_id 5, media_status "available", limit 20) with zero HTTP calls. -/
theorem get_user_requests_client_lacks_filter_params :
    (getUserRequestsParams.contains "media_status_filter") = false ∧
    (getUserRequestsParams.contains "limit") = false ∧
    kwargsBind getUserRequestsParams getUserRequestsCallKwargs = false ∧
    ∀ env : OvEnv,
      (get_user_requests_tool env 5 (some "available") 20 false).result =
        .error "Unexpected error: get_user_requests got an unexpected keyword argument media_status_filter" ∧
      (get_user_requests_tool env 5 (some "available") 20 false).httpCalls = 0 :=
  ⟨rfl, rfl, rfl, fun _ => ⟨rfl, rfl⟩⟩

/-- C9: a TV create-request with season list `None` or `[]` posts the
string "all" as its seasons field; a movie create-request posts no
seasons field; and the tool layer with seasons="all" and confirm=true
invokes the client create call with no explicit season list. -/
theorem request_media_payload_defaults :
    (∀ id : Int, requestMediaPayload .tv id none =
      { mediaType := "tv", mediaId := id, seasons := some .all }) ∧
    (∀ id : Int, requestMediaPayload .tv id (some []) =
      { mediaType := "tv", mediaId := id, seasons := some .all }) ∧
    (∀ (id : Int) (seasons : Option (List Int)),
      requestMediaPayload .movie id seasons =
        { mediaType := "movie", mediaId := id, seasons := none }) ∧
    (∀ (env : OvEnv) (id : Int) (d : RawDetail), env.tvDetail id = .ok d →
      (request_media_tool env id "tv" (some "all") true).createCalls =
        [(.tv, id, none)]) := by
  refine ⟨fun id => rfl, fun id => rfl, fun id seasons => ?_, ?_⟩
  · cases seasons <;> rfl
  · intro env id d h
    unfold request_media_tool
    rw [show MediaType.ofString? (pyLower "tv") = some .tv by rfl, h]
    cases hc : env.createResult <;>
      simp [strTruthy, hc, show pyLower "all" = "all" by rfl]

/-- Witness for C9 at a concrete environment. -/
theorem request_media_payload_defaults_witness :
    envTv.tvDetail 7 = .ok tvDetail3 ∧
    (request_media_tool envTv 7 "tv" (some "all") true).createCalls =
      [(.tv, 7, none)] :=
  ⟨rfl, request_media_payload_defaults.2.2.2 envTv 7 tvDetail3 rfl⟩

/-- C8: a media-status code outside 1..5 in an upstream `mediaInfo`
block resolves to UNKNOWN (never an error) in both `get_media_status`
and `search_media`, and an absent `mediaInfo` block also defaults to
UNKNOWN. -/
theorem status_resolution_unknown_out_of_range (v : Int) (hv : ¬(1 ≤ v ∧ v ≤ 5)) :
    (∀ (env : OvEnv) (id : Int) (raw : RawDetail) (mi : RawMediaInfoBlock),
      env.tvDetail id = .ok raw → raw.mediaInfo = some mi → mi.status = some v →
      ∃ r, get_media_status env id .tv = .ok r ∧ r.status = MediaStatus.UNKNOWN.value ∧
        r.status_text = "Not Requested") ∧
    (∀ (env : OvEnv) (id : Int) (raw : RawDetail),
      env.movieDetail id = .ok raw → raw.mediaInfo = none →
      ∃ r, get_media_status env id .movie = .ok r ∧ r.status = MediaStatus.UNKNOWN.value) ∧
    (∀ (env : OvEnv) (q : String) (item : RawSearchItem) (mi : RawMediaInfoBlock) (n : Int),
      env.search q 1 = [item] → item.mediaType = some "tv" → item.id = some n →
      item.mediaInfo = some mi → mi.status = some v →
      (search_media env q none).map SearchEntry.status = [MediaStatus.UNKNOWN.value] ∧
      (search_media env q none).map SearchEntry.status_text = ["Not Requested"]) := by
  have hres : ∀ mi : RawMediaInfoBlock, mi.status = some v →
      resolveMediaStatus (some mi) = .UNKNOWN := by
    intro mi hst
    simp [resolveMediaStatus, hst, mediaStatus_ofInt_eq_none hv]
  refine ⟨?_, ?_, ?_⟩
  · intro env id raw mi hfetch hmi hst
    unfold get_media_status
    rw [hfetch]
    exact ⟨_, rfl, by simp [hmi, hres mi hst], by simp [hmi, hres mi hst, get_media_status_text]⟩
  · intro env id raw hfetch hmi
    unfold get_media_status
    rw [hfetch]
    exact ⟨_, rfl, by simp [hmi, resolveMediaStatus]⟩
  · intro env q item mi n hs hmt hid hmi hst
    have hproc : processSearchItem none item = some
        { id := n
          mediaType := .tv
          title := MediaSearchResult.display_title ⟨n, .tv, item.title, item.name,
            item.originalTitle, item.originalName, item.overview, item.releaseDate,
            item.firstAirDate, item.posterPath, item.popularity, item.voteAverage⟩
          year := MediaSearchResult.year ⟨n, .tv, item.title, item.name,
            item.originalTitle, item.originalName, item.overview, item.releaseDate,
            item.firstAirDate, item.posterPath, item.popularity, item.voteAverage⟩
          overview := item.overview
          voteAverage := item.voteAverage
          status := MediaStatus.UNKNOWN.value
          status_text := "Not Requested" } := by
      unfold processSearchItem
      simp [hmt, parseMediaSearchResult, hid, hmi, hres mi hst, get_media_status_text,
        MediaType.ofString?]
    unfold search_media
    rw [hs]
    simp [List.filterMap_cons, hproc]

/-- Witness for C8 at code 7, concrete environments with and without a
`mediaInfo` block, and a concrete one-item search batch. -/
theorem status_resolution_unknown_witness :
    (¬(1 ≤ (7 : Int) ∧ (7 : Int) ≤ 5)) ∧
    (∃ r, get_media_status envStatus7 3 .tv = .ok r ∧
      r.status = MediaStatus.UNKNOWN.value ∧ r.status_text = "Not Requested") ∧
    (∃ r, get_media_status envStatus7 3 .movie = .ok r ∧
      r.status = MediaStatus.UNKNOWN.value) ∧
    ((search_media envStatus7 "odd" none).map SearchEntry.status =
        [MediaStatus.UNKNOWN.value] ∧
      (search_media envStatus7 "odd" none).map SearchEntry.status_text =
        ["Not Requested"]) :=
  ⟨by decide,
   (status_resolution_unknown_out_of_range 7 (by decide)).1 envStatus7 3 tvDetail7
     { status := some 7 } rfl rfl rfl,
   (status_resolution_unknown_out_of_range 7 (by decide)).2.1 envStatus7 3
     { title := some "Bare Movie" } rfl rfl,
   (status_resolution_unknown_out_of_range 7 (by decide)).2.2 envStatus7 "odd"
     searchItem7 { status := some 7 } 4 rfl rfl rfl rfl rfl⟩

/-- C7: on every list endpoint (get_users, get_requests, search_media)
a batch of N valid items with one malformed item in the middle yields
exactly the N valid parsed results; the malformed item is skipped and
no list-level error exists (the operations are total). For search, the
malformed item is one that passes the movie/tv prefilter but fails
schema validation. -/
theorem list_endpoints_skip_invalid :
    (∀ (env : OvEnv) (pre post : List RawUser) (bad : RawUser),
      env.usersPage 100 = pre ++ bad :: post →
      (∀ u ∈ pre ++ post, (parseUserInfo u).isSome) →
      parseUserInfo bad = none →
      get_users env = pre.filterMap parseUserInfo ++ post.filterMap parseUserInfo ∧
      (get_users env).length = (pre ++ post).length) ∧
    (∀ (env : OvEnv) (status : Option RequestStatus) (take skip : Nat) (sortBy : String)
      (pre post : List RawRequest) (bad : RawRequest),
      env.requestsPage take skip sortBy (status.map RequestStatus.value) =
        pre ++ bad :: post →
      (∀ r ∈ pre ++ post, (parseMediaRequest r).isSome) →
      parseMediaRequest bad = none →
      (get_requests env status take skip sortBy).length = (pre ++ post).length) ∧
    (∀ (env : OvEnv) (q : String) (pre post : List RawSearchItem) (bad : RawSearchItem),
      env.search q 1 = pre ++ bad :: post →
      (∀ i ∈ pre ++ post, (processSearchItem none i).isSome) →
      (bad.mediaType = some "movie" ∨ bad.mediaType = some "tv") →
      parseMediaSearchResult bad = none →
      (search_media env q none).length = (pre ++ post).length) := by
  refine ⟨?_, ?_, ?_⟩
  · intro env pre post bad hpage hval hbad
    have hpre := length_filterMap_of_isSome parseUserInfo pre
      (fun x hx => hval x (List.mem_append_left _ hx))
    have hpost := length_filterMap_of_isSome parseUserInfo post
      (fun x hx => hval x (List.mem_append_right _ hx))
    have hsplit : get_users env =
        pre.filterMap parseUserInfo ++ post.filterMap parseUserInfo := by
      unfold get_users
      rw [hpage, filterMap_middle_none _ _ _ _ hbad]
    exact ⟨hsplit, by simp [hsplit, hpre, hpost]⟩
  · intro env status take skip sortBy pre post bad hpage hval hbad
    have hpre := length_filterMap_of_isSome parseMediaRequest pre
      (fun x hx => hval x (List.mem_append_left _ hx))
    have hpost := length_filterMap_of_isSome parseMediaRequest post
      (fun x hx => hval x (List.mem_append_right _ hx))
    unfold get_requests
    rw [hpage, filterMap_middle_none _ _ _ _ hbad]
    simp [hpre, hpost]
  · intro env q pre post bad hpage hval hbadtype hbad
    have hbadproc : processSearchItem none bad = none := by
      unfold processSearchItem
      rcases hbadtype with h | h <;> simp [h, hbad]
    have hpre := length_filterMap_of_isSome (processSearchItem none) pre
      (fun x hx => hval x (List.mem_append_left _ hx))
    have hpost := length_filterMap_of_isSome (processSearchItem none) post
      (fun x hx => hval x (List.mem_append_right _ hx))
    unfold search_media
    rw [hpage, filterMap_middle_none _ _ _ _ hbadproc]
    simp [hpre, hpost]

/-- Witness for C7: concrete three-item batches (valid, malformed,
valid) on each endpoint yield exactly two results. -/
theorem list_endpoints_skip_invalid_witness :
    (envSkip.usersPage 100 = [goodUserA] ++ badUser :: [goodUserB] ∧
      (get_users envSkip).length = ([goodUserA] ++ [goodUserB]).length) ∧
    (envSkip.requestsPage 50 0 "added" none = [reqAtBoundary] ++ badRequest :: [reqBefore] ∧
      (get_requests envSkip none 50 0 "added").length =
        ([reqAtBoundary] ++ [reqBefore]).length) ∧
    (envSkip.search "x" 1 = [goodSearchItem] ++ badSearchItem :: [goodSearchItem] ∧
      (search_media envSkip "x" none).length =
        ([goodSearchItem] ++ [goodSearchItem]).length) :=
  ⟨⟨rfl, (list_endpoints_skip_invalid.1 envSkip [goodUserA] [goodUserB] badUser rfl
      (by decide) (by decide)).2⟩,
   ⟨rfl, list_endpoints_skip_invalid.2.1 envSkip none 50 0 "added"
      [reqAtBoundary] [reqBefore] badRequest rfl (by decide) (by decide)⟩,
   ⟨rfl, list_endpoints_skip_invalid.2.2 envSkip "x"
      [goodSearchItem] [goodSearchItem] badSearchItem rfl (by decide)
      (Or.inr (by decide)) (by decide)⟩⟩

/-- C5: with a `since` instant, `get_requests_with_media_info` is
exactly the enrichment of the fetched requests whose naive-normalized
creation time is not strictly before the naive-normalized `since`; in
particular a request created exactly at the boundary is kept. -/
theorem since_boundary_inclusive (env : OvEnv) (status : Option RequestStatus)
    (s : PyDatetime) (take : Nat) :
    get_requests_with_media_info env status (some s) take =
      ((get_requests env status take 0 "added").filter
        (fun r => !decide (pyNaive r.createdAt < pyNaive s))).map (enrichSummary env) ∧
    ∀ r ∈ get_requests env status take 0 "added",
      pyNaive r.createdAt = pyNaive s →
      enrichSummary env r ∈ get_requests_with_media_info env status (some s) take := by
  have h1 : get_requests_with_media_info env status (some s) take =
      ((get_requests env status take 0 "added").filter
        (fun r => !decide (pyNaive r.createdAt < pyNaive s))).map (enrichSummary env) := by
    unfold get_requests_with_media_info
    exact filterMap_skipIf_eq_filter_map _ _ _
  refine ⟨h1, ?_⟩
  intro r hr heq
  rw [h1]
  refine List.mem_map_of_mem _ (List.mem_filter.mpr ⟨hr, ?_⟩)
  simp [heq]

/-- Witness for C5: a concrete page with one request strictly before
the boundary and one exactly at it keeps exactly the boundary one. -/
theorem since_boundary_inclusive_witness :
    reqAtBoundaryParsed ∈ get_requests envReq none 50 0 "added" ∧
    pyNaive reqAtBoundaryParsed.createdAt = pyNaive ⟨1000, true⟩ ∧
    enrichSummary envReq reqAtBoundaryParsed ∈
      get_requests_with_media_info envReq none (some ⟨1000, true⟩) 50 ∧
    (get_requests_with_media_info envReq none (some ⟨1000, true⟩) 50).length = 1 :=
  ⟨by decide, by decide,
   (since_boundary_inclusive envReq none ⟨1000, true⟩ 50).2 reqAtBoundaryParsed
     (by decide) (by decide),
   by decide⟩

/-- C1: previewing a multi-season TV show with no `seasons` argument
issues zero create calls, selects nothing, returns the full per-season
list, and its guidance message suggests the first at-most-3 seasons
whose per-season status is "Not Requested" (or states that everything
is already requested/available when there is none). -/
theorem preview_multi_season_guidance (env : OvEnv) (tmdb_id : Int) (d : RawDetail)
    (hfetch : env.tvDetail tmdb_id = .ok d)
    (hmulti : 1 < (seasonDetailsOf d).length) :
    (request_media_tool env tmdb_id "tv" none false).createCalls = [] ∧
    (previewOf (request_media_tool env tmdb_id "tv" none false)).map (·.seasons) =
      some (some (seasonDetailsOf d)) ∧
    (previewOf (request_media_tool env tmdb_id "tv" none false)).map (·.selected_seasons) =
      some none ∧
    (previewOf (request_media_tool env tmdb_id "tv" none false)).map (·.message) =
      some (if (notRequestedSeasons d).isEmpty then allRequestedMsg
            else suggestSeasonsMsg ((notRequestedSeasons d).take 3)) ∧
    ((notRequestedSeasons d).take 3).length ≤ 3 ∧
    (∀ n ∈ (notRequestedSeasons d).take 3,
      ∃ sd ∈ seasonDetailsOf d, sd.season = n ∧ sd.status = "Not Requested") := by
  rcases hsd : seasonDetailsOf d with _ | ⟨a, _ | ⟨b, t⟩⟩
  · rw [hsd] at hmulti
    simp at hmulti
  · rw [hsd] at hmulti
    simp at hmulti
  refine ⟨?_, ?_, ?_, ?_, ?_, ?_⟩
  · unfold request_media_tool
    rw [show MediaType.ofString? (pyLower "tv") = some .tv from rfl, hfetch]
    simp [strTruthy, hsd]
  · unfold request_media_tool previewOf
    rw [show MediaType.ofString? (pyLower "tv") = some .tv from rfl, hfetch]
    simp [strTruthy, hsd]
  · unfold request_media_tool previewOf
    rw [show MediaType.ofString? (pyLower "tv") = some .tv from rfl, hfetch]
    simp [strTruthy, hsd]
  · unfold request_media_tool previewOf
    rw [show MediaType.ofString? (pyLower "tv") = some .tv from rfl, hfetch]
    simp [strTruthy, hsd]
  · rw [List.length_take]
    omega
  · intro n hn
    have hmem : n ∈ notRequestedSeasons d := List.mem_of_mem_take hn
    unfold notRequestedSeasons at hmem
    obtain ⟨sd, hsdmem, hguard⟩ := List.mem_filterMap.mp hmem
    by_cases hstat : sd.status == "Not Requested"
    · rw [if_pos hstat] at hguard
      exact ⟨sd, hsd ▸ hsdmem, Option.some_injective _ hguard, beq_iff_eq.mp hstat⟩
    · rw [if_neg hstat] at hguard
      exact absurd hguard (by simp)

/-- Witness for C1: the three-season fixture show with seasons 2 and 3
not requested. -/
theorem preview_multi_season_guidance_witness :
    (1 < (seasonDetailsOf tvDetail3).length) ∧
    (request_media_tool envTv 10 "tv" none false).createCalls = [] ∧
    (previewOf (request_media_tool envTv 10 "tv" none false)).map (·.message) =
      some (suggestSeasonsMsg [2, 3]) :=
  ⟨by decide,
   (preview_multi_season_guidance envTv 10 tvDetail3 rfl (by decide)).1,
   by
    rw [(preview_multi_season_guidance envTv 10 tvDetail3 rfl (by decide)).2.2.2.1]
    rfl⟩

/-- C2: confirming a multi-season TV request with no `seasons`
argument fails with a ToolError carrying the must-specify-seasons
message (rewrapped by the generic handler) and issues zero create
calls. -/
theorem confirm_multi_season_rejected (env : OvEnv) (tmdb_id : Int) (d : RawDetail)
    (hfetch : env.tvDetail tmdb_id = .ok d)
    (hmulti : 1 < (seasonDetailsOf d).length) :
    (request_media_tool env tmdb_id "tv" none true).createCalls = [] ∧
    (request_media_tool env tmdb_id "tv" none true).result =
      .error ("Unexpected error: " ++ mustSpecifySeasonsMsg (seasonDetailsOf d).length) := by
  rcases hsd : seasonDetailsOf d with _ | ⟨a, _ | ⟨b, t⟩⟩
  · rw [hsd] at hmulti
    simp at hmulti
  · rw [hsd] at hmulti
    simp at hmulti
  constructor
  · unfold request_media_tool
    rw [show MediaType.ofString? (pyLower "tv") = some .tv from rfl, hfetch]
    simp [strTruthy, hsd]
  · unfold request_media_tool
    rw [show MediaType.ofString? (pyLower "tv") = some .tv from rfl, hfetch]
    simp [strTruthy, hsd]

/-- Witness for C2: the three-season fixture show. -/
theorem confirm_multi_season_rejected_witness :
    (1 < (seasonDetailsOf tvDetail3).length) ∧
    (request_media_tool envTv 10 "tv" none true).createCalls = [] ∧
    (request_media_tool envTv 10 "tv" none true).result =
      .error ("Unexpected error: " ++ mustSpecifySeasonsMsg 3) :=
  ⟨by decide,
   (confirm_multi_season_rejected envTv 10 tvDetail3 rfl (by decide)).1,
   by
    rw [(confirm_multi_season_rejected envTv 10 tvDetail3 rfl (by decide)).2]
    rfl⟩

/-- A section scan that did not hit the cap consumed every hit. -/
theorem sectionScan_false_length (nt : String) (items : List RawPlexItem) :
    ∀ acc res, sectionScan nt items acc = (res, false) →
      res.length = acc.length + items.length := by
  induction items with
  | nil =>
    intro acc res h
    injection h with h1 _
    simp [← h1]
  | cons i is ih =>
    intro acc res h
    unfold sectionScan at h
    by_cases hc : 50 ≤ (acc ++ [mkPlexItem nt i]).length
    · rw [if_pos hc] at h
      simp at h
    · rw [if_neg hc] at h
      have := ih _ _ h
      simp only [List.length_append, List.length_singleton] at this
      simp only [List.length_cons]
      omega

/-- A section scan that starts below the cap and does not hit it stays
below the cap. -/
theorem sectionScan_false_lt (nt : String) (items : List RawPlexItem) :
    ∀ acc res, acc.length < 50 → sectionScan nt items acc = (res, false) →
      res.length < 50 := by
  induction items with
  | nil =>
    intro acc res hlt h
    injection h with h1 _
    exact h1 ▸ hlt
  | cons i is ih =>
    intro acc res hlt h
    unfold sectionScan at h
    by_cases hc : 50 ≤ (acc ++ [mkPlexItem nt i]).length
    · rw [if_pos hc] at h
      simp at h
    · rw [if_neg hc] at h
      refine ih _ _ ?_ h
      simp only [List.length_append, List.length_singleton] at hc ⊢
      omega

/-- A section scan that starts below the cap and hits it returns
exactly 50 accumulated results. -/
theorem sectionScan_true_length (nt : String) (items : List RawPlexItem) :
    ∀ acc res, acc.length < 50 → sectionScan nt items acc = (res, true) →
      res.length = 50 := by
  induction items with
  | nil =>
    intro acc res _ h
    simp [sectionScan] at h
  | cons i is ih =>
    intro acc res hlt h
    unfold sectionScan at h
    by_cases hc : 50 ≤ (acc ++ [mkPlexItem nt i]).length
    · rw [if_pos hc] at h
      injection h with h1 _
      simp only [List.length_append, List.length_singleton] at hc
      simp [← h1]
      omega
    · rw [if_neg hc] at h
      exact ih _ _ (by simp at hc; simp; omega) h

/-- The section loop never accumulates more than 50 results. -/
theorem searchSections_length_le (env : PlexEnv) (q : String)
    (ss : List PlexLibrarySection) :
    ∀ acc, acc.length < 50 → ((searchSections env q ss acc).1).length ≤ 50 := by
  induction ss with
  | nil =>
    intro acc h
    simpa [searchSections] using Nat.le_of_lt h
  | cons s rest ih =>
    intro acc hlt
    unfold searchSections
    rcases hscan : sectionScan (if s.type = "show" then "tv" else s.type)
        (env.hits s.key q) acc with ⟨res, flag⟩
    cases flag
    · have hlt' := sectionScan_false_lt _ _ _ _ hlt hscan
      rcases hrec : searchSections env q rest res with ⟨res2, q2⟩
      have := ih res hlt'
      rw [hrec] at this
      simpa [hscan, hrec] using this
    · have := sectionScan_true_length _ _ _ _ hlt hscan
      simp [hscan, this]

/-- Once a prefix of the remaining sections already carries 50 or more
hits, the loop never queries a section beyond that prefix. -/
theorem searchSections_short_circuit (env : PlexEnv) (q : String) :
    ∀ (a b : List PlexLibrarySection) (acc : List PlexMediaItem),
      acc.length < 50 →
      50 ≤ acc.length + (a.map fun s => (env.hits s.key q).length).sum →
      ((searchSections env q (a ++ b) acc).2).length ≤ a.length := by
  intro a
  induction a with
  | nil =>
    intro b acc hlt hsum
    simp at hsum
    omega
  | cons s a' ih =>
    intro b acc hlt hsum
    simp only [List.cons_append]
    unfold searchSections
    rcases hscan : sectionScan (if s.type = "show" then "tv" else s.type)
        (env.hits s.key q) acc with ⟨res, flag⟩
    cases flag
    · have hlen := sectionScan_false_length _ _ _ _ hscan
      have hlt' := sectionScan_false_lt _ _ _ _ hlt hscan
      rcases hrec : searchSections env q (a' ++ b) res with ⟨res2, q2⟩
      have hq2 : q2.length ≤ a'.length := by
        have hs := ih b res hlt' (by
          simp only [List.map_cons, List.sum_cons] at hsum
          omega)
        rw [hrec] at hs
        exact hs
      simp [hscan, hrec]
      omega
    · simp [hscan]

/-- C6: `search_library` returns at most 50 items, and as soon as a
prefix of the target sections accounts for 50 accumulated results the
remaining sections are never queried. -/
theorem search_library_cap_and_short_circuit (env : PlexEnv) (q : String)
    (mt : Option String) :
    (search_library env q mt).1.length ≤ 50 ∧
    ∀ a b, targetSections env mt = a ++ b →
      50 ≤ (a.map fun s => (env.hits s.key q).length).sum →
      (search_library env q mt).2.length ≤ a.length := by
  constructor
  · unfold search_library
    exact searchSections_length_le env q _ [] (by simp)
  · intro a b hab hsum
    unfold search_library
    rw [hab]
    exact searchSections_short_circuit env q a b [] (by simp) (by simpa using hsum)

/-- Witness for C6: three sections of 30 hits each yield exactly 50
results and the third section is never queried. -/
theorem search_library_cap_witness :
    targetSections plexEnv3 none =
      [⟨"1", "Movies", "movie"⟩, ⟨"2", "Shows", "show"⟩] ++
        [⟨"3", "More Movies", "movie"⟩] ∧
    50 ≤ (([⟨"1", "Movies", "movie"⟩, ⟨"2", "Shows", "show"⟩] :
        List PlexLibrarySection).map fun s => (plexEnv3.hits s.key "x").length).sum ∧
    (search_library plexEnv3 "x" none).1.length = 50 ∧
    (search_library plexEnv3 "x" none).2.length ≤ 2 :=
  ⟨by decide, by decide, by decide,
   (search_library_cap_and_short_circuit plexEnv3 "x" none).2
     [⟨"1", "Movies", "movie"⟩, ⟨"2", "Shows", "show"⟩]
     [⟨"3", "More Movies", "movie"⟩] (by decide) (by decide)⟩

/-- Items produced by a section scan either were already accumulated or
carry the section's normalized type. -/
theorem sectionScan_mem_prop (P : PlexMediaItem → Prop) (nt : String)
    (items : List RawPlexItem) :
    ∀ acc res flag, (∀ i ∈ acc, P i) → (∀ x, P (mkPlexItem nt x)) →
      sectionScan nt items acc = (res, flag) → ∀ i ∈ res, P i := by
  induction items with
  | nil =>
    intro acc res flag hacc _ h i hi
    injection h with h1 _
    exact hacc i (h1 ▸ hi)
  | cons x xs ih =>
    intro acc res flag hacc hmk h i hi
    unfold sectionScan at h
    by_cases hc : 50 ≤ (acc ++ [mkPlexItem nt x]).length
    · rw [if_pos hc] at h
      injection h with h1 _
      rcases List.mem_append.mp (h1 ▸ hi) with hmem | hmem
      · exact hacc i hmem
      · simp at hmem
        exact hmem ▸ hmk x
    · rw [if_neg hc] at h
      refine ih _ _ _ ?_ hmk h i hi
      intro j hj
      rcases List.mem_append.mp hj with hmem | hmem
      · exact hacc j hmem
      · simp at hmem
        exact hmem ▸ hmk x

/-- Every item the section loop produces has a movie/tv media type,
provided every section has upstream type movie or show. -/
theorem searchSections_mem_types (env : PlexEnv) (q : String)
    (ss : List PlexLibrarySection) :
    ∀ acc, (∀ s ∈ ss, s.type = "movie" ∨ s.type = "show") →
      (∀ i ∈ acc, i.media_type = "movie" ∨ i.media_type = "tv") →
      ∀ i ∈ (searchSections env q ss acc).1,
        i.media_type = "movie" ∨ i.media_type = "tv" := by
  induction ss with
  | nil =>
    intro acc _ hacc i hi
    exact hacc i (by simpa [searchSections] using hi)
  | cons s rest ih =>
    intro acc hss hacc i hi
    have hnt : ∀ x, (mkPlexItem (if s.type = "show" then "tv" else s.type) x).media_type
        = "movie" ∨
        (mkPlexItem (if s.type = "show" then "tv" else s.type) x).media_type = "tv" := by
      intro x
      by_cases hshow : s.type = "show"
      · simp [mkPlexItem, hshow]
      · rcases hss s (List.mem_cons_self s rest) with hm | hm
        · simp [mkPlexItem, hshow, hm]
        · exact absurd hm hshow
    simp only [searchSections] at hi
    rcases hscan : sectionScan (if s.type = "show" then "tv" else s.type)
        (env.hits s.key q) acc with ⟨res, flag⟩
    rw [hscan] at hi
    have hres : ∀ j ∈ res, j.media_type = "movie" ∨ j.media_type = "tv" :=
      sectionScan_mem_prop _ _ _ _ _ _ hacc hnt hscan
    cases flag
    · have hi2 : i ∈ (searchSections env q rest res).1 := by simpa using hi
      exact ih res (fun x hx => hss x (List.mem_cons_of_mem s hx)) hres i hi2
    · exact hres i (by simpa using hi)

/-- Sections kept by `get_library_sections` have type movie or show. -/
theorem get_library_sections_types (env : PlexEnv) :
    ∀ s ∈ get_library_sections env, s.type = "movie" ∨ s.type = "show" := by
  intro s hs
  unfold get_library_sections at hs
  obtain ⟨d, _, hd⟩ := List.mem_filterMap.mp hs
  by_cases hc : (d.type.getD "") == "movie" || (d.type.getD "") == "show"
  · rw [if_pos hc] at hd
    injection hd with hd
    rcases Bool.or_eq_true_iff.mp hc with hm | hm
    · exact .inl (hd ▸ beq_iff_eq.mp hm)
    · exact .inr (hd ▸ beq_iff_eq.mp hm)
  · rw [if_neg hc] at hd
    cases hd

/-- Target sections inherit the movie/show invariant. -/
theorem targetSections_types (env : PlexEnv) (mt : Option String) :
    ∀ s ∈ targetSections env mt, s.type = "movie" ∨ s.type = "show" := by
  intro s hs
  unfold targetSections at hs
  cases mt with
  | none => exact get_library_sections_types env s hs
  | some m => exact get_library_sections_types env s (List.mem_of_mem_filter hs)

/-- C10: every item `search_library` returns has media type "movie" or
"tv" — a hit from a section of upstream type "show" is normalized to
"tv" before being exposed, so "show" never escapes. -/
theorem search_library_media_type_normalized (env : PlexEnv) (q : String)
    (mt : Option String) :
    ∀ item ∈ (search_library env q mt).1,
      item.media_type = "movie" ∨ item.media_type = "tv" := by
  intro item hitem
  unfold search_library at hitem
  exact searchSections_mem_types env q (targetSections env mt) []
    (targetSections_types env mt) (by simp) item hitem

/-- Witness for C10: a hit of the fixture show section appears in the
results with media type "tv". -/
theorem search_library_media_type_normalized_witness :
    mkPlexItem "tv" {} ∈ (search_library plexEnv3 "x" none).1 ∧
    ((mkPlexItem "tv" {}).media_type = "movie" ∨
      (mkPlexItem "tv" {}).media_type = "tv") :=
  ⟨by decide,
   search_library_media_type_normalized plexEnv3 "x" none (mkPlexItem "tv" {})
     (by decide)⟩

end OverseerrMCP
